import Mathlib

/-!
Verification of the Internet-Speed-Test repository.

The repository consists of a browser client (`public/js/script.js`, class
`ProfessionalSpeedTest`), a second stand-alone browser client (class
`SpeedTest`), and a Node/Express WebSocket server.  This file shallowly
embeds the measurement logic of those files: JavaScript numbers are
modelled as `Option ℚ` (`none` standing for a non-finite value, NaN or
±Infinity), JSON objects as association lists of string keys, timer-driven
loops as fuel-indexed recursion over explicit tick counters, and the
module-level mutable variables (`lastLatency`, the per-connection upload
fields) as explicitly threaded state.
-/

/-- A JavaScript number: `none` models a non-finite value (NaN or ±Infinity). -/
abbrev JSNum := Option ℚ

/-- JavaScript subtraction on numbers; any non-finite operand poisons the result. -/
def jsSub (a b : JSNum) : JSNum :=
  match a, b with
  | some x, some y => some (x - y)
  | _, _ => none

/-- JavaScript division: division by zero and non-finite operands give a
non-finite result (`0/0` is NaN, `x/0` is ±Infinity; both are `none` here). -/
def jsDiv (a b : JSNum) : JSNum :=
  match a, b with
  | some x, some y => if y = 0 then none else some (x / y)
  | _, _ => none

/-- JavaScript `Math.abs`. -/
def jsAbs (a : JSNum) : JSNum := a.map (fun x => |x|)

/-- JavaScript `Math.round`: round half up, i.e. `⌊x + 1/2⌋`. -/
def mathRound (q : ℚ) : ℤ := ⌊q + 1 / 2⌋

/-- A JSON value as it appears in the control messages (numbers, strings,
and `null`; `JSON.stringify` serialises NaN/Infinity as `null`). -/
inductive Jval where
  | jnum (q : ℚ)
  | jstr (s : String)
  | jnull
  deriving Repr, DecidableEq

/-- A JSON object: association list of fields. -/
abbrev Msg := List (String × Jval)

/-- Field lookup in a JSON object (`data.field`); `none` models `undefined`. -/
def getField (data : Msg) (k : String) : Option Jval :=
  (data.find? (fun p => p.1 = k)).map (fun p => p.2)

/-- Serialising a JavaScript number into JSON (`JSON.stringify` turns a
non-finite number into `null`). -/
def numToJ (x : JSNum) : Jval :=
  match x with
  | some q => .jnum q
  | none => .jnull

/-- Numeric coercion of a field value used by JavaScript arithmetic:
a missing field (`undefined`) is NaN, `null` is 0; numeric-string coercion
is not modelled (the clients only ever send numbers here). -/
def toNumber (v : Option Jval) : JSNum :=
  match v with
  | some (.jnum q) => some q
  | some .jnull => some 0
  | _ => none

/-! ## Server (Express/WebSocket file): jitter, download, upload handlers -/

/-- `calculateJitter` from the server, with the module-level mutable
`lastLatency` threaded explicitly: given the stored previous latency and
the current latency it returns the reported jitter and the new stored
value.  The source:

    if (lastLatency === 0) { lastLatency = currentLatency; return 0; }
    const jitter = Math.abs(currentLatency - lastLatency);
    lastLatency = currentLatency;
    return jitter;
-/
def calculateJitter (lastLatency current : JSNum) : JSNum × JSNum :=
  if lastLatency = some 0 then (some 0, current)
  else (jsAbs (jsSub current lastLatency), current)

/-- Feeding a sequence of latencies through `calculateJitter`, collecting
the jitter value reported for each probe (initial `lastLatency` is 0). -/
def jitterRun (lastLatency : JSNum) : List JSNum → List JSNum
  | [] => []
  | c :: cs =>
    let p := calculateJitter lastLatency c
    p.1 :: jitterRun p.2 cs

/-- The jitter definition stated by the specification (for comparison with
the source's `calculateJitter`): mean absolute difference between
consecutive RTT samples. -/
def specMeanAbsConsecutiveDiff (l : List ℚ) : ℚ :=
  (((l.zip l.tail).map (fun p => |p.2 - p.1|)).sum) / ((l.length - 1 : ℕ) : ℚ)

/-- The server's Mbps formula `(bytes * 8) / (elapsedMs / 1000) / 1000000`,
used for download progress, the final download speed, and upload progress. -/
def serverSpeedMbps (bytes : ℕ) (elapsedMs : ℚ) : JSNum :=
  jsDiv (jsDiv (some ((bytes : ℚ) * 8)) (some (elapsedMs / 1000))) (some 1000000)

/-- Chunk length (bytes) selected from `TEST_CHUNKS[size]`, falling back to
the 10 MiB chunk for unknown keys (`TEST_CHUNKS[size] || TEST_CHUNKS['10mb']`). -/
def chunkLenFor (s : String) : ℕ :=
  if s = "1mb" then 1048576
  else if s = "5mb" then 5242880
  else if s = "10mb" then 10485760
  else if s = "25mb" then 26214400
  else if s = "50mb" then 52428800
  else if s = "100mb" then 104857600
  else 10485760

/-- The `size` field of a `start-download` message (destructuring default
`'10mb'`; a non-string key selects no pre-generated chunk, so the
`|| TEST_CHUNKS['10mb']` fallback applies). -/
def dlChunkLen (data : Msg) : ℕ :=
  match getField data "size" with
  | none => 10485760
  | some (.jstr s) => chunkLenFor s
  | some _ => 10485760

/-- The `chunkCount` field of a `start-download` message (destructuring
default 10).  A numeric value `q` drives the loop `for (i = 0; i < q; i++)`,
i.e. `max 0 ⌈q⌉` iterations; `null` or a non-numeric value yields zero
iterations (the `<` comparison never holds; numeric-string coercion is not
modelled). -/
def dlChunkCount (data : Msg) : ℕ :=
  match getField data "chunkCount" with
  | none => 10
  | some (.jnum q) => if q ≤ 0 then 0 else q.ceil.toNat
  | some _ => 0

/-- An outbound WebSocket frame: a JSON text message or a binary chunk of
the given length. -/
inductive OutMsg where
  | json (fields : Msg)
  | binary (len : ℕ)
  deriving Repr, DecidableEq

/-- The `download-progress` message sent after chunk `i` (of `n`), when
`i % 2 = 0`; `elapsedMs` is the wall-clock elapsed at that point. -/
def dlProgressMsg (chunkLen n i : ℕ) (elapsedMs : ℕ) : OutMsg :=
  .json [("type", .jstr "download-progress"),
         ("speed", numToJ (serverSpeedMbps ((i + 1) * chunkLen) (elapsedMs : ℚ))),
         ("bytesDownloaded", .jnum (((i + 1) * chunkLen : ℕ) : ℚ)),
         ("progress", .jnum (((i : ℚ) + 1) / (n : ℚ) * 100)),
         ("elapsed", .jnum (elapsedMs : ℚ))]

/-- The `download-complete` message. -/
def dlCompleteMsg (bytes : ℕ) (elapsedMs : ℕ) : OutMsg :=
  .json [("type", .jstr "download-complete"),
         ("speed", numToJ (serverSpeedMbps bytes (elapsedMs : ℚ))),
         ("totalBytes", .jnum (bytes : ℚ)),
         ("duration", .jnum (elapsedMs : ℚ))]

/-- `handleDownloadTest`: streams `n` chunks of `chunkLen` bytes (the
socket is modelled as staying OPEN for the whole loop), interleaving a
progress message after every even-indexed chunk, then sends the completion
message.  `elapsedAt i` is the elapsed wall-clock (ms) when chunk `i`'s
progress report is computed, `totalElapsedMs` the elapsed time at the end. -/
def handleDownloadTest (chunkLen n : ℕ) (elapsedAt : ℕ → ℕ) (totalElapsedMs : ℕ) : List OutMsg :=
  (List.flatten ((List.range n).map (fun i =>
    OutMsg.binary chunkLen ::
      (if i % 2 = 0 then [dlProgressMsg chunkLen n i (elapsedAt i)] else []))))
  ++ [dlCompleteMsg (n * chunkLen) totalElapsedMs]

/-- Per-connection server state: the upload accumulation fields declared in
the connection handler, plus the module-level `lastLatency` used by
`calculateJitter` (threaded here as part of the state we pass around;
in the source it is a single process-wide variable). -/
structure ConnState where
  uploadData : List ℕ
  uploadStartTime : Option ℕ
  totalUploadBytes : ℕ
  lastLatency : JSNum
  deriving Repr, DecidableEq

/-- Connection state right after `connection` fires: `uploadData = []`,
`uploadStartTime = null`, `totalUploadBytes = 0` (and `lastLatency`
initially 0). -/
def initConnState : ConnState :=
  { uploadData := [], uploadStartTime := none, totalUploadBytes := 0, lastLatency := some 0 }

/-- The `pong` reply to a `ping`: `{ type: 'pong', timestamp: data.timestamp }`;
`JSON.stringify` drops the key when `data.timestamp` is `undefined`. -/
def pongReply (data : Msg) : OutMsg :=
  .json ([("type", Jval.jstr "pong")] ++
    (match getField data "timestamp" with
     | some v => [("timestamp", v)]
     | none => []))

/-- The server's handler for an inbound text (JSON control) message: the
`switch (data.type)` in `ws.on('message')`.  `now` is `Date.now()` at
dispatch; `elapsedAt`/`dlElapsedMs` time the download streaming loop.
A `type` that matches no case falls out of the `switch`: no reply is sent
and the state is untouched. -/
def handleTextMessage (st : ConnState) (now : ℕ) (elapsedAt : ℕ → ℕ)
    (dlElapsedMs : ℕ) (data : Msg) : ConnState × List OutMsg :=
  match getField data "type" with
  | some (.jstr t) =>
    if t = "start-download" then
      (st, handleDownloadTest (dlChunkLen data) (dlChunkCount data) elapsedAt dlElapsedMs)
    else if t = "start-upload" then
      ({ st with uploadStartTime := some now, totalUploadBytes := 0, uploadData := [] },
       [.json [("type", .jstr "upload-ready"),
               ("message", .jstr "Ready to receive upload data")]])
    else if t = "ping" then
      (st, [pongReply data])
    else if t = "latency-test" then
      let lat : JSNum := jsSub (some (now : ℚ)) (toNumber (getField data "timestamp"))
      let p := calculateJitter st.lastLatency lat
      ({ st with lastLatency := p.2 },
       [.json [("type", .jstr "latency-result"),
               ("latency", numToJ lat),
               ("jitter", numToJ p.1)]])
    else (st, [])
  | _ => (st, [])

/-- The `upload-progress` message (sent once at least one second has elapsed). -/
def uploadProgressMsg (total : ℕ) (elapsedMs : ℤ) : OutMsg :=
  .json [("type", .jstr "upload-progress"),
         ("speed", numToJ (serverSpeedMbps total (elapsedMs : ℚ))),
         ("bytesTransferred", .jnum (total : ℚ)),
         ("elapsed", .jnum (elapsedMs : ℚ))]

/-- The `upload-complete` message: the final speed divides by the fixed
`UPLOAD_TEST_DURATION` (5000 ms), the reported `duration` is the actual
elapsed time. -/
def uploadCompleteMsg (total : ℕ) (elapsedMs : ℤ) : OutMsg :=
  .json [("type", .jstr "upload-complete"),
         ("speed", numToJ (serverSpeedMbps total 5000)),
         ("totalBytes", .jnum (total : ℚ)),
         ("duration", .jnum (elapsedMs : ℚ))]

/-- The server's handler for an inbound binary frame of `len` bytes.
The whole body is guarded by `if (uploadStartTime)`: when the start time is
unset (`null`) — or 0, which is falsy in JavaScript — the frame is dropped
with no reply and no state change.  Otherwise the byte counter and buffer
are updated, a progress message is sent after 1000 ms, and after
`UPLOAD_TEST_DURATION` (5000 ms) the completion message is sent and
`uploadStartTime`/`uploadData` are reset. -/
def handleBinaryMessage (st : ConnState) (now : ℕ) (len : ℕ) : ConnState × List OutMsg :=
  match st.uploadStartTime with
  | none => (st, [])
  | some t0 =>
    if t0 = 0 then (st, [])
    else
      let total := st.totalUploadBytes + len
      let elapsed : ℤ := (now : ℤ) - (t0 : ℤ)
      let progress : List OutMsg :=
        if 1000 ≤ elapsed then [uploadProgressMsg total elapsed] else []
      if 5000 ≤ elapsed then
        ({ st with uploadStartTime := none, uploadData := [], totalUploadBytes := total },
         progress ++ [uploadCompleteMsg total elapsed])
      else
        ({ st with uploadData := st.uploadData ++ [len], totalUploadBytes := total },
         progress)

/-! ## Server: location assignment on connect -/

/-- A server location entry. -/
structure Location where
  name : String
  lat : ℚ
  lon : ℚ
  region : String
  deriving Repr, DecidableEq

/-- The eight hard-coded locations. -/
def locations : List Location :=
  [⟨"New York", 40.7128, -74.0060, "US East"⟩,
   ⟨"London", 51.5074, -0.1278, "EU West"⟩,
   ⟨"Tokyo", 35.6762, 139.6503, "Asia East"⟩,
   ⟨"Sydney", -33.8688, 151.2093, "Oceania"⟩,
   ⟨"Frankfurt", 50.1109, 8.6821, "EU Central"⟩,
   ⟨"Singapore", 1.3521, 103.8198, "Asia Southeast"⟩,
   ⟨"São Paulo", -23.5505, -46.6333, "South America"⟩,
   ⟨"Mumbai", 19.0760, 72.8777, "Asia South"⟩]

/-- Splitting a character list on `'.'` (the octet lists of `ip.split('.')`,
handled as character lists so the definition computes by structural
recursion). -/
def splitOnDotAux : List Char → List Char → List (List Char)
  | [], acc => [acc.reverse]
  | c :: cs, acc =>
    if c = '.' then acc.reverse :: splitOnDotAux cs []
    else splitOnDotAux cs (c :: acc)

/-- `ip.split('.')` as a list of octet character lists. -/
def splitOnDot (s : String) : List (List Char) := splitOnDotAux s.toList []

/-- JavaScript `parseInt` restricted to what the IP-octet strings exercise:
the value of the leading run of decimal digits, NaN (`none`) when there is
none. -/
def parseIntJS (cs : List Char) : Option ℕ :=
  match cs.takeWhile Char.isDigit with
  | [] => none
  | ds => some (ds.foldl (fun n c => n * 10 + (c.toNat - 48)) 0)

/-- The octet-sum hash `ip.split('.').reduce((acc, octet) => acc + parseInt(octet), 0)`;
a NaN from any octet poisons the sum. -/
def ipHash (ip : String) : Option ℕ :=
  (splitOnDot ip).foldl
    (fun acc oct =>
      match acc, parseIntJS oct with
      | some a, some b => some (a + b)
      | _, _ => none)
    (some 0)

/-- `getServerLocation`: index the location table by `hash % locations.length`;
a NaN hash indexes `locations[NaN]`, i.e. `undefined` (`none`). -/
def getServerLocation (ip : String) : Option Location :=
  (ipHash ip).map (fun h => locations.get ⟨h % locations.length, Nat.mod_lt h (by decide)⟩)

/-- The `server-info` message sent on connect, reduced to its payload:
the `server` field (`getServerLocation(clientIp)`) and the `timestamp`
field (`Date.now()` at connection time). -/
def serverInfoMsg (ip : String) (now : ℕ) : Option Location × ℕ :=
  (getServerLocation ip, now)

/-! ## Browser client `ProfessionalSpeedTest` (public/js/script.js) -/

/-- The client-side result store (`this.results`) plus the
`testInProgress` flag; the DOM handles are out of scope. -/
structure ClientState where
  testInProgress : Bool
  resultsDownload : List JSNum
  resultsUpload : List JSNum
  resultsPing : List ℚ
  resultsJitter : List ℚ
  deriving Repr, DecidableEq

/-- What a call to a start method produces besides the new state:
the guard path returns immediately with no value (`ignored`), the normal
path begins the test (`started`); `errored` would be a rejected call
carrying an error message — no code path produces it. -/
inductive StartOutcome where
  | ignored
  | started
  | errored (msg : String)
  deriving Repr, DecidableEq

/-- The entry guard of `startFullTest`:

    if (this.testInProgress) return;
    this.testInProgress = true;
    this.results = { download: [], upload: [], ping: [], jitter: [] };

When a test is already in progress the call returns `undefined` at once —
no error is thrown or returned and nothing is mutated. -/
def startFullTest (s : ClientState) : ClientState × StartOutcome :=
  if s.testInProgress then (s, .ignored)
  else ({ testInProgress := true, resultsDownload := [], resultsUpload := [],
          resultsPing := [], resultsJitter := [] }, .started)

/-- State of the stand-alone `SpeedTest` class (the second client file). -/
structure SpeedTestState where
  downloadSpeed : ℚ
  uploadSpeed : ℚ
  pingSpeed : ℚ
  testInProgress : Bool
  deriving Repr, DecidableEq

/-- The entry guard of `SpeedTest.startSpeedTest`:

    if (this.testInProgress) return;
    this.testInProgress = true;
    this.downloadSpeed = 0; this.uploadSpeed = 0; this.pingSpeed = 0;

Same silent early return as `startFullTest`. -/
def startSpeedTest (s : SpeedTestState) : SpeedTestState × StartOutcome :=
  if s.testInProgress then (s, .ignored)
  else ({ downloadSpeed := 0, uploadSpeed := 0, pingSpeed := 0,
          testInProgress := true }, .started)

/-- The actions the client's `handleWebSocketMessage` `switch (data.type)`
can dispatch to, one per `case`. -/
inductive ClientAction where
  | updateServerInfo
  | handlePong
  | handleLatencyResult
  | handleDownloadProgress
  | handleDownloadComplete
  | handleUploadProgress
  | handleUploadComplete
  | showErrorToast
  deriving Repr, DecidableEq

/-- The client's `switch (data.type)` dispatch: a recognised tag selects
its handler; any other tag matches no `case` (there is no `default`) and
the message is ignored. -/
def clientDispatch (t : String) : Option ClientAction :=
  if t = "server-info" then some .updateServerInfo
  else if t = "pong" then some .handlePong
  else if t = "latency-result" then some .handleLatencyResult
  else if t = "download-progress" then some .handleDownloadProgress
  else if t = "download-complete" then some .handleDownloadComplete
  else if t = "upload-progress" then some .handleUploadProgress
  else if t = "upload-complete" then some .handleUploadComplete
  else if t = "error" then some .showErrorToast
  else none

/-- JavaScript's `pings.reduce((a, b) => a + b, 0)`. -/
def jsSumFold (l : List ℚ) : ℚ := l.foldl (fun a b => a + b) 0

/-- The average ping `pings.reduce((a, b) => a + b, 0) / pings.length`
computed by both `testLatency` (script.js) and `SpeedTest.testPing`
(a division, hence NaN on the empty list). -/
def avgPing (pings : List ℚ) : JSNum :=
  jsDiv (some (jsSumFold pings)) (some ((pings.length : ℕ) : ℚ))

/-- The displayed latency: `Math.round` of the average ping. -/
def displayedPing (pings : List ℚ) : Option ℤ :=
  (avgPing pings).map mathRound

/-- The client rate formula `(totalBytes * 8) / elapsedSec / 1000000` from
`testDownloadSpeed`/`testUploadSpeed` (elapsed already in seconds there),
used both per-tick (instantaneous speed) and at phase end (final speed). -/
def clientRateMbps (totalBytes : ℕ) (elapsedSec : ℚ) : JSNum :=
  jsDiv (jsDiv (some ((totalBytes : ℚ) * 8)) (some elapsedSec)) (some 1000000)

/-- The trailing-80%-window aggregate rate stated by the specification (for
comparison with the source's whole-window `clientRateMbps`):
`8 * total_bytes / (window_seconds * 0.8) / 1e6`. -/
def specTrailingWindowRate (totalBytes : ℕ) (windowSec : ℚ) : ℚ :=
  (totalBytes : ℚ) * 8 / (windowSec * (8 / 10)) / 1000000

/-- Outcome of one client throughput phase (`testDownloadSpeed` /
`testUploadSpeed`): the per-tick speed samples pushed into
`this.results`, the final average speed, the tick at which the interval
was cleared, and the bytes accumulated.  The phase promise always
resolves with these values — there is no failure path. -/
structure PhaseRun where
  speeds : List JSNum
  finalSpeed : JSNum
  finishTick : ℕ
  totalBytes : ℕ
  deriving Repr, DecidableEq

/-- The `setInterval` body shared by `testDownloadSpeed` and
`testUploadSpeed`: at each tick, if `chunk >= chunks || !testInProgress`
the interval is cleared and the phase resolves with the samples collected
so far and the whole-window average speed; otherwise `chunkBytes` are
added, an instantaneous speed sample is pushed, and the loop continues.
`inP t` is the value of `this.testInProgress` observed at tick `t`,
`elap t` the elapsed seconds at tick `t`.  `fuel` bounds the recursion;
with `fuel > chunks` the fuel-exhausted branch is unreachable (the tick
counter increases at every non-final step). -/
def phaseLoop (chunks chunkBytes : ℕ) (inP : ℕ → Bool) (elap : ℕ → ℚ) :
    ℕ → ℕ → ℕ → List JSNum → PhaseRun
  | 0, tick, totalBytes, speeds =>
    ⟨speeds.reverse, clientRateMbps totalBytes (elap tick), tick, totalBytes⟩
  | fuel + 1, tick, totalBytes, speeds =>
    if chunks ≤ tick ∨ inP tick = false then
      ⟨speeds.reverse, clientRateMbps totalBytes (elap tick), tick, totalBytes⟩
    else
      phaseLoop chunks chunkBytes inP elap fuel (tick + 1) (totalBytes + chunkBytes)
        (clientRateMbps (totalBytes + chunkBytes) (elap tick) :: speeds)

/-- `testDownloadSpeed`: 8000 ms / 100 ms = 80 ticks, 1 MiB per tick. -/
def testDownloadSpeedRun (inP : ℕ → Bool) (elap : ℕ → ℚ) : PhaseRun :=
  phaseLoop 80 1048576 inP elap 81 0 0 []

/-- `testUploadSpeed`: 5000 ms / 100 ms = 50 ticks.  The stop check and the
final-speed computation are the source's (lines 367-372); the per-tick byte
increment is cut off by the truncation of script.js, so the bytes added per
tick are left as the parameter `chunkBytes` (Modelled from the spec: the
upload driver sends fixed-size chunks until the duration elapses). -/
def testUploadSpeedRun (inP : ℕ → Bool) (elap : ℕ → ℚ) (chunkBytes : ℕ) : PhaseRun :=
  phaseLoop 50 chunkBytes inP elap 51 0 0 []

/-- The phases of a session, in the order `startFullTest` runs them. -/
inductive PhaseTag where
  | latency
  | download
  | upload
  | metrics
  deriving Repr, DecidableEq

/-- `startFullTest`'s try block awaits `testLatency`, `testDownloadSpeed`,
`testUploadSpeed` and `calculateAdvancedMetrics` unconditionally in
sequence; every phase promise resolves, so all four phases are always
entered, and the `finally` block then clears `testInProgress` (the last
component) — the only terminal condition the session has. -/
def runSession (inP : ℕ → Bool) (elapD elapU : ℕ → ℚ) (ulChunk : ℕ) :
    List PhaseTag × PhaseRun × PhaseRun × Bool :=
  ([.latency, .download, .upload, .metrics],
   testDownloadSpeedRun inP elapD,
   testUploadSpeedRun inP elapU ulChunk,
   false)

/-- The in-progress predicate of a run whose `testInProgress` flag is
cleared just before tick `n` (the cancellation analogue the code offers). -/
def cancelAt (n : ℕ) : ℕ → Bool := fun t => decide (t < n)

/-! ## Helper lemmas -/

/-- `calculateJitter` reports 0 when the current latency equals the stored one. -/
theorem calculateJitter_self (c : ℚ) : calculateJitter (some c) (some c) = (some 0, some c) := by
  by_cases hc : c = 0
  · subst hc; simp [calculateJitter]
  · simp [calculateJitter, hc, jsSub, jsAbs]

/-- A constant latency stream starting from a matching stored value only
ever reports jitter 0. -/
theorem jitterRun_const (c : ℚ) :
    ∀ n, jitterRun (some c) (List.replicate n (some c)) = List.replicate n (some 0) := by
  intro n
  induction n with
  | zero => rfl
  | succ n ih =>
    simp only [List.replicate_succ, jitterRun, calculateJitter_self]
    exact congrArg _ ih

/-- `reduce((a, b) => a + b, 0)` is the list sum. -/
theorem jsSumFold_eq_sum (l : List ℚ) : jsSumFold l = l.sum := by
  have h : ∀ (l : List ℚ) (a : ℚ), l.foldl (fun x y => x + y) a = a + l.sum := by
    intro l
    induction l with
    | nil => intro a; simp
    | cons x xs ih => intro a; simp [List.foldl_cons, ih, add_assoc]
  simpa [jsSumFold] using h l 0

/-- Behaviour of the client phase loop when the in-progress flag is
cleared just before tick `n`: the interval is cleared exactly at tick `n`,
having collected one speed sample and `chunkBytes` bytes per earlier tick,
and the final speed is computed from the bytes accumulated so far. -/
theorem phaseLoop_cancelAt (chunks chunkBytes : ℕ) (elap : ℕ → ℚ) (n : ℕ)
    (hn : n ≤ chunks) :
    ∀ fuel tick totalBytes speeds, tick ≤ n → n - tick < fuel →
      (phaseLoop chunks chunkBytes (cancelAt n) elap fuel tick totalBytes speeds).finishTick = n ∧
      (phaseLoop chunks chunkBytes (cancelAt n) elap fuel tick totalBytes speeds).speeds.length
        = speeds.length + (n - tick) ∧
      (phaseLoop chunks chunkBytes (cancelAt n) elap fuel tick totalBytes speeds).totalBytes
        = totalBytes + (n - tick) * chunkBytes ∧
      (phaseLoop chunks chunkBytes (cancelAt n) elap fuel tick totalBytes speeds).finalSpeed
        = clientRateMbps (totalBytes + (n - tick) * chunkBytes) (elap n) := by
  intro fuel
  induction fuel with
  | zero => intro tick totalBytes speeds ht hf; omega
  | succ fuel ih =>
    intro tick totalBytes speeds ht hf
    by_cases hcase : tick = n
    · subst hcase
      have hcond : chunks ≤ tick ∨ cancelAt tick tick = false :=
        Or.inr (by simp [cancelAt])
      simp only [phaseLoop, if_pos hcond]
      simp
    · have htlt : tick < n := lt_of_le_of_ne ht hcase
      have hcond : ¬(chunks ≤ tick ∨ cancelAt n tick = false) := by
        rintro (h | h)
        · omega
        · simp only [cancelAt, decide_eq_false_iff_not] at h
          exact h htlt
      simp only [phaseLoop, if_neg hcond]
      obtain ⟨h1, h2, h3, h4⟩ :=
        ih (tick + 1) (totalBytes + chunkBytes)
          (clientRateMbps (totalBytes + chunkBytes) (elap tick) :: speeds)
          (by omega) (by omega)
      have hsub : n - tick = (n - (tick + 1)) + 1 := by omega
      refine ⟨h1, ?_, ?_, ?_⟩
      · rw [h2, List.length_cons, hsub]; ring
      · rw [h3, hsub]; ring
      · rw [h4, hsub]; ring_nf

/-! ## Claims -/

/-- C1 (counterexample): the server's jitter is not the mean absolute
difference between consecutive RTT samples.  Feeding the RTT sequence
`[40, 60, 50, 70]` through `calculateJitter` reports the per-probe values
`[0, 20, 10, 20]`; the spec's mean absolute consecutive difference of that
sequence is `50/3`, which is reported at no point (in particular the final
reported jitter is 20, not `50/3 ≈ 16.67`). -/
theorem C1_counterexample :
    jitterRun (some 0) [some 40, some 60, some 50, some 70]
      = [some 0, some 20, some 10, some 20] ∧
    specMeanAbsConsecutiveDiff [40, 60, 50, 70] = 50 / 3 ∧
    some ((50 : ℚ) / 3) ∉ jitterRun (some 0) [some 40, some 60, some 50, some 70] := by
  have hrun : jitterRun (some 0) [some 40, some 60, some 50, some 70]
      = [some 0, some 20, some 10, some 20] := by
    norm_num [jitterRun, calculateJitter, jsSub, jsAbs]
  refine ⟨hrun, ?_, ?_⟩
  · norm_num [specMeanAbsConsecutiveDiff]
  · rw [hrun]; norm_num

/-- C1 (amended): the server computes jitter per probe as the absolute
difference between the current and the previous RTT sample, the previous
value living in the module-level `lastLatency` (initially 0, so the
first probe reports 0).  For every constant RTT sequence each reported
jitter is exactly 0, and for `[40, 60, 50, 70]` the successive reported
jitters are `[0, 20, 10, 20]`. -/
theorem C1_amended_jitter :
    (∀ (n : ℕ) (c : ℚ),
      jitterRun (some 0) (List.replicate n (some c)) = List.replicate n (some 0)) ∧
    jitterRun (some 0) [some 40, some 60, some 50, some 70]
      = [some 0, some 20, some 10, some 20] := by
  refine ⟨?_, by norm_num [jitterRun, calculateJitter, jsSub, jsAbs]⟩
  intro n c
  cases n with
  | zero => rfl
  | succ n =>
    have hfirst : calculateJitter (some 0) (some c) = (some 0, some c) := by
      simp [calculateJitter]
    simp only [List.replicate_succ, jitterRun, hfirst]
    exact congrArg _ (jitterRun_const c n)

/-- C2 (counterexample): the rate computation can divide by zero and
produce NaN.  A `start-download` with `chunkCount = 0` sends no chunks, so
zero bytes are delivered and the elapsed time can be 0 ms; the final speed
`(0 * 8) / (0 / 1000) / 1000000` is then `0/0` (NaN, serialised as `null`
in the `download-complete` message) — not 0. -/
theorem C2_counterexample :
    serverSpeedMbps 0 0 = none ∧
    handleDownloadTest 10485760 0 (fun _ => 0) 0 =
      [.json [("type", .jstr "download-complete"), ("speed", .jnull),
              ("totalBytes", .jnum 0), ("duration", .jnum 0)]] := by
  constructor
  · norm_num [serverSpeedMbps, jsDiv]
  · norm_num [handleDownloadTest, dlCompleteMsg, numToJ, serverSpeedMbps, jsDiv]

/-- C2 (amended): whenever the elapsed time is positive, a phase that
delivered zero bytes yields aggregate rate exactly 0 with no division by
zero, on both the server formula and the client formula; the
division-by-zero/NaN case arises only at zero elapsed time. -/
theorem C2_amended_zero_bytes (e : ℕ) (he : 0 < e) :
    serverSpeedMbps 0 ((e : ℕ) : ℚ) = some 0 ∧
    clientRateMbps 0 (((e : ℕ) : ℚ) / 1000) = some 0 := by
  have he' : ((e : ℕ) : ℚ) / 1000 ≠ 0 := by positivity
  constructor
  · simp [serverSpeedMbps, jsDiv, he']
  · simp [clientRateMbps, jsDiv, he']

/-- C2 (witness): the amended statement at 100 ms elapsed. -/
theorem C2_amended_zero_bytes_witness :
    serverSpeedMbps 0 ((100 : ℕ) : ℚ) = some 0 ∧
    clientRateMbps 0 (((100 : ℕ) : ℚ) / 1000) = some 0 :=
  C2_amended_zero_bytes 100 (by decide)

/-- C3 (counterexample): calling start while a test is in progress is not
rejected with an "already running" error — the guard `if
(this.testInProgress) return;` makes the call a silent no-op.  At an
in-progress state the call returns the state unchanged with outcome
`ignored`, which is not an error outcome. -/
theorem C3_counterexample :
    startFullTest ⟨true, [], [], [], []⟩ = (⟨true, [], [], [], []⟩, .ignored) ∧
    StartOutcome.ignored ≠ StartOutcome.errored "already running" := by
  exact ⟨rfl, by decide⟩

/-- C3 (amended): in both clients, calling start while `testInProgress`
is set returns immediately with no error and leaves the state entirely
unchanged (a silent no-op rather than a rejection). -/
theorem C3_amended_start_guard :
    (∀ s : ClientState, s.testInProgress = true → startFullTest s = (s, .ignored)) ∧
    (∀ s : SpeedTestState, s.testInProgress = true → startSpeedTest s = (s, .ignored)) := by
  constructor
  · intro s h; simp [startFullTest, h]
  · intro s h; simp [startSpeedTest, h]

/-- C3 (witness): the amended statement at concrete in-progress states. -/
theorem C3_amended_start_guard_witness :
    startFullTest ⟨true, [], [], [], []⟩ = (⟨true, [], [], [], []⟩, .ignored) ∧
    startSpeedTest ⟨0, 0, 0, true⟩ = (⟨0, 0, 0, true⟩, .ignored) :=
  ⟨C3_amended_start_guard.1 _ rfl, C3_amended_start_guard.2 _ rfl⟩

/-- C4 (counterexample): the final download rate is computed over the
whole window, not the trailing 80%.  For 10 MiB over 8 s the code's rate
is `32768/3125 = 10.48576` Mbps, while the spec's trailing-80% formula
gives `8192/625 = 13.1072` Mbps; the two differ by about 2.62 Mbps, far
outside rounding tolerance. -/
theorem C4_counterexample :
    clientRateMbps 10485760 8 = some (32768 / 3125) ∧
    specTrailingWindowRate 10485760 8 = 8192 / 625 ∧
    (1 : ℚ) / 2 < 8192 / 625 - 32768 / 3125 := by
  refine ⟨by norm_num [clientRateMbps, jsDiv], ?_, by norm_num⟩
  norm_num [specTrailingWindowRate]

/-- C4 (amended): the final aggregate rate is
`8 * total_bytes / total_elapsed_seconds / 10^6` computed over the whole
phase window (for 10 MiB over 8 s this gives ≈ 10.49 Mbps, not 13.1). -/
theorem C4_amended_whole_window_rate (bytes : ℕ) (d : ℚ) (hd : 0 < d) :
    clientRateMbps bytes d = some ((bytes : ℚ) * 8 / d / 1000000) := by
  have hd' : d ≠ 0 := ne_of_gt hd
  simp [clientRateMbps, jsDiv, hd']

/-- C4 (witness): the amended statement at 10 MiB over 8 s. -/
theorem C4_amended_whole_window_rate_witness :
    clientRateMbps 10485760 8 = some (((10485760 : ℕ) : ℚ) * 8 / 8 / 1000000) :=
  C4_amended_whole_window_rate 10485760 8 (by norm_num)

/-- C5 (confirmed): for every non-empty list of RTT samples, the computed
latency is the arithmetic mean of the samples and the displayed value is
that mean rounded to the nearest integer (`Math.round`, i.e. `round`).
This covers both `testLatency` in script.js and `SpeedTest.testPing`,
which compute `Math.round(pings.reduce((a, b) => a + b, 0) / pings.length)`. -/
theorem C5_latency_mean (pings : List ℚ) (h : pings ≠ []) :
    avgPing pings = some (pings.sum / (pings.length : ℚ)) ∧
    displayedPing pings = some (round (pings.sum / (pings.length : ℚ))) := by
  have hlen : ((pings.length : ℕ) : ℚ) ≠ 0 := by
    have : pings.length ≠ 0 := by simpa [List.length_eq_zero] using h
    exact_mod_cast this
  constructor
  · simp [avgPing, jsDiv, hlen, jsSumFold_eq_sum]
  · simp [displayedPing, avgPing, jsDiv, hlen, jsSumFold_eq_sum, mathRound, round_eq]

/-- C5 (witness): the RTT samples `[40, 60, 50, 70]` average to 55 and
display as 55. -/
theorem C5_latency_mean_witness :
    avgPing [40, 60, 50, 70]
      = some (([40, 60, 50, 70] : List ℚ).sum / ((([40, 60, 50, 70] : List ℚ).length : ℕ) : ℚ)) ∧
    displayedPing [40, 60, 50, 70]
      = some (round (([40, 60, 50, 70] : List ℚ).sum / ((([40, 60, 50, 70] : List ℚ).length : ℕ) : ℚ))) :=
  C5_latency_mean [40, 60, 50, 70] (by simp)

/-- C6 (counterexample): the server does not echo `seq` and `sendTime`.
For a ping carrying `seq = 5` and `sendTime = 123` (and no `timestamp`
field), the reply is a bare `{ type: 'pong' }`: the server only ever reads
`data.timestamp`, so neither `seq` nor `sendTime` appears in the pong. -/
theorem C6_counterexample :
    handleTextMessage initConnState 0 (fun _ => 0) 0
        [("type", .jstr "ping"), ("seq", .jnum 5), ("sendTime", .jnum 123)] =
      (initConnState, [.json [("type", .jstr "pong")]]) ∧
    getField [("type", Jval.jstr "pong")] "seq" = none ∧
    getField [("type", Jval.jstr "pong")] "sendTime" = none := by
  refine ⟨?_, by decide, by decide⟩
  decide

/-- C6 (amended): for every ping that carries a `timestamp` field, the
server replies with a `pong` echoing that `timestamp` value unmodified;
the protocol has no `seq` or `sendTime` fields. -/
theorem C6_amended_pong_echo (st : ConnState) (now : ℕ) (elapsedAt : ℕ → ℕ)
    (dlElapsedMs : ℕ) (data : Msg) (v : Jval)
    (hty : getField data "type" = some (.jstr "ping"))
    (hts : getField data "timestamp" = some v) :
    handleTextMessage st now elapsedAt dlElapsedMs data =
      (st, [.json [("type", .jstr "pong"), ("timestamp", v)]]) := by
  simp [handleTextMessage, hty, pongReply, hts]

/-- C6 (witness): the amended statement at a concrete ping. -/
theorem C6_amended_pong_echo_witness :
    handleTextMessage initConnState 0 (fun _ => 0) 0
        [("type", Jval.jstr "ping"), ("timestamp", Jval.jnum 777)] =
      (initConnState, [.json [("type", .jstr "pong"), ("timestamp", .jnum 777)]]) :=
  C6_amended_pong_echo initConnState 0 (fun _ => 0) 0 _ _ (by decide) (by decide)

/-- C7 (counterexample): an unrecognised control-message tag is silently
ignored, not turned into a ProtocolError: on `{ type: 'bogus' }` the
server's switch matches no case (there is no default), so no reply of any
kind is sent and the connection state is unchanged. -/
theorem C7_counterexample :
    handleTextMessage initConnState 0 (fun _ => 0) 0 [("type", .jstr "bogus")] =
      (initConnState, []) := by
  decide

/-- C7 (amended): both `switch (data.type)` statements have no default
case, so any unrecognised tag is silently dropped: the server handles only
start-download / start-upload / ping / latency-test and otherwise replies
with nothing and changes no state, and the client dispatches only its
eight known tags and otherwise takes no action. -/
theorem C7_amended_silent_ignore :
    (∀ (st : ConnState) (now : ℕ) (elapsedAt : ℕ → ℕ) (dlElapsedMs : ℕ)
        (data : Msg) (t : String),
      getField data "type" = some (.jstr t) →
      t ≠ "start-download" → t ≠ "start-upload" → t ≠ "ping" → t ≠ "latency-test" →
      handleTextMessage st now elapsedAt dlElapsedMs data = (st, [])) ∧
    (∀ t : String,
      t ≠ "server-info" → t ≠ "pong" → t ≠ "latency-result" → t ≠ "download-progress" →
      t ≠ "download-complete" → t ≠ "upload-progress" → t ≠ "upload-complete" → t ≠ "error" →
      clientDispatch t = none) := by
  constructor
  · intro st now ea de data t hty h1 h2 h3 h4
    simp [handleTextMessage, hty, h1, h2, h3, h4]
  · intro t h1 h2 h3 h4 h5 h6 h7 h8
    simp [clientDispatch, h1, h2, h3, h4, h5, h6, h7, h8]

/-- C7 (witness): the amended statement at the unknown tag `frobnicate`. -/
theorem C7_amended_silent_ignore_witness :
    handleTextMessage initConnState 0 (fun _ => 0) 0
        [("type", Jval.jstr "frobnicate")] = (initConnState, []) ∧
    clientDispatch "frobnicate" = none :=
  ⟨C7_amended_silent_ignore.1 initConnState 0 (fun _ => 0) 0 _ "frobnicate" (by decide)
      (by decide) (by decide) (by decide) (by decide),
   C7_amended_silent_ignore.2 "frobnicate" (by decide) (by decide) (by decide) (by decide)
      (by decide) (by decide) (by decide) (by decide)⟩

/-- C8 (counterexample): cancellation does not skip downstream phases.
In a run whose `testInProgress` flag is cleared just before download tick 3,
the download phase stops at tick 3 with the 3 samples collected so far —
but the session still enters the upload phase afterwards (the phase
sequence is awaited unconditionally), contradicting the claim that
downstream phases are never entered; and no `Cancelled` state exists —
the run ends with `testInProgress = false` exactly as a completed run does. -/
theorem C8_counterexample :
    PhaseTag.upload ∈
      (runSession (cancelAt 3)
        (fun t => ((t : ℚ) + 1) / 10) (fun t => ((t : ℚ) + 1) / 10) 65536).1 ∧
    (testDownloadSpeedRun (cancelAt 3) (fun t => ((t : ℚ) + 1) / 10)).speeds.length = 3 ∧
    (testDownloadSpeedRun (cancelAt 3) (fun t => ((t : ℚ) + 1) / 10)).finishTick = 3 := by
  obtain ⟨h1, h2, -, -⟩ :=
    phaseLoop_cancelAt 80 1048576 (fun t => ((t : ℚ) + 1) / 10) 3 (by omega)
      81 0 0 [] (by omega) (by omega)
  exact ⟨by simp [runSession], by simpa [testDownloadSpeedRun] using h2,
    by simpa [testDownloadSpeedRun] using h1⟩

/-- C8 (amended): if the `testInProgress` flag is cleared during the
download phase (the only cancellation mechanism the code has), the
download interval stops at the very next tick and the phase resolves with
the samples collected so far as a partial result rather than failing — but
the session still enters the upload and metrics phases afterwards, and
there is no `Cancelled` state: the run simply ends with
`testInProgress = false`, indistinguishable from normal completion. -/
theorem C8_amended_cancellation (n : ℕ) (elapD elapU : ℕ → ℚ) (ulChunk : ℕ)
    (hn : n ≤ 80) :
    (testDownloadSpeedRun (cancelAt n) elapD).finishTick = n ∧
    (testDownloadSpeedRun (cancelAt n) elapD).speeds.length = n ∧
    (testDownloadSpeedRun (cancelAt n) elapD).finalSpeed
      = clientRateMbps (n * 1048576) (elapD n) ∧
    PhaseTag.upload ∈ (runSession (cancelAt n) elapD elapU ulChunk).1 ∧
    (runSession (cancelAt n) elapD elapU ulChunk).2.2.2 = false := by
  obtain ⟨h1, h2, h3, h4⟩ :=
    phaseLoop_cancelAt 80 1048576 elapD n hn 81 0 0 [] (by omega) (by omega)
  refine ⟨?_, ?_, ?_, by simp [runSession], by simp [runSession]⟩
  · simpa [testDownloadSpeedRun] using h1
  · simpa [testDownloadSpeedRun] using h2
  · simpa [testDownloadSpeedRun, Nat.mul_comm] using h4

/-- C8 (witness): the amended statement for cancellation before tick 3. -/
theorem C8_amended_cancellation_witness :
    (testDownloadSpeedRun (cancelAt 3) (fun t => ((t : ℚ) + 1) / 10)).finishTick = 3 ∧
    (testDownloadSpeedRun (cancelAt 3) (fun t => ((t : ℚ) + 1) / 10)).speeds.length = 3 ∧
    (testDownloadSpeedRun (cancelAt 3) (fun t => ((t : ℚ) + 1) / 10)).finalSpeed
      = clientRateMbps (3 * 1048576) (((3 : ℚ) + 1) / 10) ∧
    PhaseTag.upload ∈
      (runSession (cancelAt 3)
        (fun t => ((t : ℚ) + 1) / 10) (fun t => ((t : ℚ) + 1) / 10) 65536).1 ∧
    (runSession (cancelAt 3)
        (fun t => ((t : ℚ) + 1) / 10) (fun t => ((t : ℚ) + 1) / 10) 65536).2.2.2 = false :=
  C8_amended_cancellation 3 (fun t => ((t : ℚ) + 1) / 10) (fun t => ((t : ℚ) + 1) / 10)
    65536 (by decide)

/-- C9 (confirmed): a binary frame arriving while `uploadStartTime` is
unset is dropped entirely — the `if (uploadStartTime)` guard fails, so the
server sends no reply and neither the upload byte counter nor the buffered
upload data changes. -/
theorem C9_binary_dropped (st : ConnState) (now len : ℕ)
    (h : st.uploadStartTime = none) :
    handleBinaryMessage st now len = (st, []) := by
  simp [handleBinaryMessage, h]

/-- C9 (witness): a 64 KiB binary frame on a fresh connection is dropped. -/
theorem C9_binary_dropped_witness :
    handleBinaryMessage initConnState 1234 65536 = (initConnState, []) :=
  C9_binary_dropped initConnState 1234 65536 rfl

/-- C10 (counterexample): the `server-info` message does not depend only
on the client IP — it also carries `timestamp: Date.now()`, so two
connections from the same IP at different times receive different
messages. -/
theorem C10_counterexample :
    serverInfoMsg "1.2.3.4" 1000 ≠ serverInfoMsg "1.2.3.4" 2000 := by
  simp [serverInfoMsg]

/-- C10 (amended): `getServerLocation` is a pure function of the IP
string, so the `server` field of the `server-info` message depends only on
the client IP (only the `timestamp` field varies between connections).
Concretely, `"1.2.3.4"` hashes to 10 and always maps to the Tokyo entry,
and an address whose first octet is not numeric (e.g. a Node IPv6-mapped
`::ffff:...` address) always yields an undefined location. -/
theorem C10_amended_location_deterministic :
    (∀ (ip : String) (t1 t2 : ℕ), (serverInfoMsg ip t1).1 = (serverInfoMsg ip t2).1) ∧
    (getServerLocation "1.2.3.4").map Location.name = some "Tokyo" ∧
    getServerLocation "::ffff:127.0.0.1" = none := by
  refine ⟨fun ip t1 t2 => rfl, ?_, ?_⟩
  · decide
  · decide
